import Mathlib

/-!
Shallow embedding of `src/wav.c` (fhchl/libwav), a RIFF/WAVE reader/writer.
Structures mirror the packed C structs, machine integers are `Nat` with
explicit `% 2^w` where C unsigned arithmetic can wrap, C strings are
`List Char`, and the stream is modelled by the byte position and the bytes
of the data region that the transcoder moves.
-/

namespace LibWav

/-- Modelled from the spec: the error enumeration `WavErr` lives in `wav.h`,
which is not part of `src/`; spec section 7 lists the five error kinds
(format, mode, parameter, out-of-memory, OS) next to the OK status. -/
inductive WavErr where
  | ok
  | os
  | format
  | mode
  | param
  | nomem
deriving DecidableEq

/-- Modelled from the spec: the format-tag constants live in `wav.h`, which is
not part of `src/`; spec section 3 gives PCM=1, IEEE float=3, A-law=6,
mu-law=7, extensible=0xFFFE. -/
def WAV_FORMAT_PCM : Nat := 1

/-- Modelled from the spec: see `WAV_FORMAT_PCM`. -/
def WAV_FORMAT_IEEE_FLOAT : Nat := 3

/-- Modelled from the spec: see `WAV_FORMAT_PCM`. -/
def WAV_FORMAT_ALAW : Nat := 6

/-- Modelled from the spec: see `WAV_FORMAT_PCM`. -/
def WAV_FORMAT_MULAW : Nat := 7

/-- Modelled from the spec: see `WAV_FORMAT_PCM`. -/
def WAV_FORMAT_EXTENSIBLE : Nat := 0xFFFE

/-- Four-character chunk id `'FFIR'` as the little-endian host reads "RIFF"
(wav.c line 16). -/
def WAV_RIFF_CHUNK_ID : Nat := 0x46464952

/-- Four-character chunk id for "fmt " (wav.c line 17). -/
def WAV_FORMAT_CHUNK_ID : Nat := 0x20746d66

/-- Four-character chunk id for "fact" (wav.c line 18). -/
def WAV_FACT_CHUNK_ID : Nat := 0x74636166

/-- Four-character chunk id for "data" (wav.c line 19). -/
def WAV_DATA_CHUNK_ID : Nat := 0x61746164

/-- Four-character id for "WAVE" (wav.c line 20). -/
def WAV_WAVE_ID : Nat := 0x45564157

/-- `WAV_RIFF_HEADER_SIZE` (wav.c line 104). -/
def WAV_RIFF_HEADER_SIZE : Nat := 8

/-- The packed `WavFormatChunk` struct (wav.c lines 106-123).  The 16-byte
`sub_format` array is kept as a byte list. -/
structure WavFormatChunk where
  id : Nat
  size : Nat
  format_tag : Nat
  n_channels : Nat
  sample_rate : Nat
  avg_bytes_per_sec : Nat
  block_align : Nat
  bits_per_sample : Nat
  ext_size : Nat
  valid_bits_per_sample : Nat
  channel_mask : Nat
  sub_format : List Nat
deriving DecidableEq

/-- The packed `WavFactChunk` struct (wav.c lines 125-131). -/
structure WavFactChunk where
  id : Nat
  size : Nat
  sample_length : Nat
deriving DecidableEq

/-- The packed `WavDataChunk` struct (wav.c lines 133-137). -/
structure WavDataChunk where
  id : Nat
  size : Nat
deriving DecidableEq

/-- The packed `WavMasterChunk` struct (wav.c lines 139-149). -/
structure WavMasterChunk where
  id : Nat
  size : Nat
  wave_id : Nat
  format_chunk : WavFormatChunk
  fact_chunk : WavFactChunk
  data_chunk : WavDataChunk
deriving DecidableEq

/-- Byte offset of `format_tag` inside the packed `WavFormatChunk`
(after the 4-byte `id` and 4-byte `size`). -/
def off_format_tag : Nat := 8

/-- Byte offset of `ext_size` inside the packed `WavFormatChunk`:
`format_tag`(2) + `n_channels`(2) + `sample_rate`(4) + `avg_bytes_per_sec`(4)
+ `block_align`(2) + `bits_per_sample`(2) past `off_format_tag`. -/
def off_ext_size : Nat := off_format_tag + 2 + 2 + 4 + 4 + 2 + 2

/-- Byte offset of `valid_bits_per_sample` inside the packed
`WavFormatChunk`, two bytes past `ext_size`. -/
def off_valid_bits_per_sample : Nat := off_ext_size + 2

/-- Size in bytes of the packed `WavFormatChunk` struct:
`valid_bits_per_sample`(2) + `channel_mask`(4) + `sub_format`(16) past
`off_valid_bits_per_sample`. -/
def sizeof_WavFormatChunk : Nat := off_valid_bits_per_sample + 2 + 4 + 16

/-- Value of the C expression
`&self->chunk.format_chunk.ext_size - &self->chunk.format_chunk.format_tag`
(wav.c line 352).  Both operands have type `uint16_t*`, so the pointer
subtraction yields the byte distance divided by `sizeof(uint16_t) = 2`. -/
def ptrdiff_ext_size_format_tag : Nat := (off_ext_size - off_format_tag) / 2

/-- Value of the C expression
`&self->chunk.format_chunk.valid_bits_per_sample - &self->chunk.format_chunk.format_tag`
(wav.c line 698); again a `uint16_t*` subtraction, byte distance over 2. -/
def ptrdiff_valid_bits_format_tag : Nat := (off_valid_bits_per_sample - off_format_tag) / 2

/-- The `default_sub_format` byte array (wav.c lines 163-166). -/
def default_sub_format : List Nat :=
  [0x01, 0x00, 0x00, 0x00, 0x00, 0x00, 0x10, 0x00,
   0x80, 0x00, 0x00, 0xaa, 0x00, 0x38, 0x9b, 0x71]

/-- Handle state relevant to the claims: the canonical mode string, the
chunk model, the stream byte position (`ftell`), and the stream's
end-of-file flag (`feof`).  Mirrors `struct _WavFile` (wav.c lines 153-161)
restricted to the fields the verified operations touch. -/
structure WavFile where
  mode : List Char
  chunk : WavMasterChunk
  pos_bytes : Nat
  at_feof : Bool
deriving DecidableEq

/-- `strncmp(a, b, n) == 0` for NUL-free C strings: the first `n`
characters agree, where a string shorter than `n` must end exactly where
the other does (the terminator participates in the comparison). -/
def strncmp0 (a b : List Char) (n : Nat) : Bool :=
  a.take n == b.take n

/-- `wav_get_header_size` (wav.c lines 168-179). -/
def wav_get_header_size (chunk : WavMasterChunk) : Nat :=
  let header_size := WAV_RIFF_HEADER_SIZE + 4 +
                     WAV_RIFF_HEADER_SIZE + chunk.format_chunk.size +
                     WAV_RIFF_HEADER_SIZE
  if chunk.fact_chunk.id = WAV_FACT_CHUNK_ID then
    header_size + (WAV_RIFF_HEADER_SIZE + chunk.fact_chunk.size)
  else
    header_size

/-- The `self->chunk.size` recomputation performed by `wav_write_header`
(wav.c lines 253-264).  `size` is a `uint32_t`, so each store wraps
modulo `2^32`. -/
def wav_write_header_chunk (c : WavMasterChunk) : WavMasterChunk :=
  let s1 := (4 + (WAV_RIFF_HEADER_SIZE + c.format_chunk.size) +
                 (WAV_RIFF_HEADER_SIZE + c.data_chunk.size)) % 2 ^ 32
  let s2 := if c.fact_chunk.id = WAV_FACT_CHUNK_ID then
              (s1 + (WAV_RIFF_HEADER_SIZE + c.fact_chunk.size)) % 2 ^ 32
            else s1
  let s3 := if s2 % 2 ≠ 0 then (s2 + 1) % 2 ^ 32 else s2
  { c with size := s3 }

/-- The mode-string canonicalization chain of `wav_init`
(wav.c lines 300-319), returning the canonical mode stored in
`self->mode`, or `none` for `WAV_ERR_MODE`. -/
def wav_init_mode (mode : List Char) : Option (List Char) :=
  if strncmp0 mode ['r'] 1 || strncmp0 mode ['r', 'b'] 2 then
    some ['r', 'b']
  else if strncmp0 mode ['r', '+'] 2 || strncmp0 mode ['r', 'b', '+'] 3 ||
          strncmp0 mode ['r', '+', 'b'] 3 then
    some ['r', 'b', '+']
  else if strncmp0 mode ['w'] 1 || strncmp0 mode ['w', 'b'] 2 then
    some ['w', 'b']
  else if strncmp0 mode ['w', '+'] 2 || strncmp0 mode ['w', 'b', '+'] 3 ||
          strncmp0 mode ['w', '+', 'b'] 3 then
    some ['w', 'b', '+']
  else if strncmp0 mode ['w', 'x'] 2 || strncmp0 mode ['w', 'b', 'x'] 3 then
    some ['w', 'b', 'x']
  else if strncmp0 mode ['w', '+', 'x'] 3 || strncmp0 mode ['w', 'b', '+', 'x'] 4 ||
          strncmp0 mode ['w', '+', 'b', 'x'] 4 then
    some ['w', 'b', '+', 'x']
  else if strncmp0 mode ['a'] 1 || strncmp0 mode ['a', 'b'] 2 then
    some ['a', 'b']
  else if strncmp0 mode ['a', '+'] 2 || strncmp0 mode ['a', 'b', '+'] 3 ||
          strncmp0 mode ['a', '+', 'b'] 3 then
    some ['a', 'b', '+']
  else
    none

/-- The ChunkModel as initialized by the write-mode path of `wav_init`
(wav.c lines 347-366), on top of the initial `memset(self, 0, ...)`
(line 298).  `format_chunk.size` is set from the `uint16_t*` pointer
subtraction of line 352, see `ptrdiff_ext_size_format_tag`. -/
def wav_init_write_chunk : WavMasterChunk :=
  { id := WAV_RIFF_CHUNK_ID
    size := 0
    wave_id := WAV_WAVE_ID
    format_chunk :=
      { id := WAV_FORMAT_CHUNK_ID
        size := ptrdiff_ext_size_format_tag
        format_tag := WAV_FORMAT_PCM
        n_channels := 2
        sample_rate := 44100
        avg_bytes_per_sec := 44100 * 2 * 2
        block_align := 4
        bits_per_sample := 16
        ext_size := 0
        valid_bits_per_sample := 0
        channel_mask := 0
        sub_format := default_sub_format }
    fact_chunk := { id := WAV_DATA_CHUNK_ID, size := 0, sample_length := 0 }
    data_chunk := { id := WAV_DATA_CHUNK_ID, size := 0 } }

/-- `wav_get_length` (wav.c lines 876-879): recorded data bytes over the
block alignment. -/
def wav_get_length (chunk : WavMasterChunk) : Nat :=
  chunk.data_chunk.size / chunk.format_chunk.block_align

/-- `wav_tell` (wav.c lines 612-627) in the non-failing case.  The source
asserts `pos >= header_size`, so the `long` subtraction and division are
carried out on the nonnegative byte distance. -/
def wav_tell (f : WavFile) : Nat :=
  (f.pos_bytes - wav_get_header_size f.chunk) / f.chunk.format_chunk.block_align

/-- `wav_eof` (wav.c lines 663-667). -/
def wav_eof (f : WavFile) : Bool :=
  f.at_feof ||
    f.pos_bytes = wav_get_header_size f.chunk + f.chunk.data_chunk.size

/-- Seek origins of `<stdio.h>`: `SEEK_SET`, `SEEK_CUR`, `SEEK_END`. -/
inductive SeekOrigin where
  | seekSet
  | seekCur
  | seekEnd
deriving DecidableEq

/-- `wav_seek` (wav.c lines 629-656).  The origin is resolved against the
frame length; an in-range resolved offset is then overwritten with
`self->chunk.format_chunk.block_align` (line 641) before the absolute
`fseek(self->fp, offset, SEEK_SET)`; an out-of-range resolved offset sets
`WAV_ERR_PARAM` and returns without seeking. -/
def wav_seek (f : WavFile) (offset : Int) (origin : SeekOrigin) : WavFile × WavErr :=
  let length := wav_get_length f.chunk
  let offset : Int :=
    match origin with
    | .seekCur => offset + (wav_tell f : Int)
    | .seekEnd => offset + (length : Int)
    | .seekSet => offset
  if 0 ≤ offset ∧ offset ≤ (length : Int) then
    let offset : Int := (f.chunk.format_chunk.block_align : Int)
    ({ f with pos_bytes := offset.toNat }, WavErr.ok)
  else
    (f, WavErr.param)

/-- The mode test that makes `wav_read` fail with `WAV_ERR_MODE`
(wav.c line 464): `strncmp(mode,"wb",2)==0 || strncmp(mode,"wbx",3)==0 ||
strncmp(mode,"ab",2)==0`. -/
def wav_read_mode_rejected (mode : List Char) : Bool :=
  strncmp0 mode ['w', 'b'] 2 || strncmp0 mode ['w', 'b', 'x'] 3 ||
    strncmp0 mode ['a', 'b'] 2

/-- The mode test that makes `wav_write` fail with `WAV_ERR_MODE`
(wav.c line 539): `strncmp(mode,"rb",2)==0`. -/
def wav_write_mode_rejected (mode : List Char) : Bool :=
  strncmp0 mode ['r', 'b'] 2

/-- Control flow of `wav_read` (wav.c lines 455-528) up to the frame count
it returns, over the handle state: the mode gate, the extensible-format
gate, the clamp of `count` to `length - tell`, and the trivial zero-count
success.  The `fread` of the clamped `n_channels * count` samples is
modelled as delivering them all: the clamp keeps the request inside the
recorded data region, whose bytes are present on the stream, so
`read_count / n_channels` is the clamped count. -/
def wav_read_frames (f : WavFile) (count : Nat) : WavErr × Nat :=
  if wav_read_mode_rejected f.mode then
    (WavErr.mode, 0)
  else if f.chunk.format_chunk.format_tag = WAV_FORMAT_EXTENSIBLE then
    (WavErr.format, 0)
  else
    let len_remain := wav_get_length f.chunk - wav_tell f
    let count := if count ≤ len_remain then count else len_remain
    if count = 0 then
      (WavErr.ok, 0)
    else
      (WavErr.ok, count)

/-- The mode test of `wav_finalize` (wav.c lines 387-392) selecting the
write and append modes that receive the odd-size pad byte. -/
def wav_finalize_mode_pads (mode : List Char) : Bool :=
  strncmp0 mode ['w', 'b'] 2 || strncmp0 mode ['w', 'b', '+'] 3 ||
    strncmp0 mode ['w', 'b', 'x'] 3 || strncmp0 mode ['w', 'b', '+', 'x'] 4 ||
    strncmp0 mode ['a', 'b'] 2 || strncmp0 mode ['a', 'b', '+'] 3

/-- `wav_finalize` (wav.c lines 377-410): when the mode is a write/append
mode, the recorded data size is odd and the stream is at end-of-file, one
zero byte is written at the current position; the chunk model is not
touched.  Returns the closed handle state and the number of pad bytes
written. -/
def wav_finalize (f : WavFile) : WavFile × Nat :=
  if wav_finalize_mode_pads f.mode ∧ f.chunk.data_chunk.size % 2 ≠ 0 ∧ wav_eof f then
    ({ f with pos_bytes := f.pos_bytes + 1 }, 1)
  else
    (f, 0)

/-- Outcome of a format mutator: the chunk model after the call, the error
code, and whether `wav_write_header` was invoked (i.e. whether a stream
write was attempted). -/
abbrev MutOut := WavMasterChunk × WavErr × Bool

/-- Success epilogue shared by all format mutators: run the
`wav_write_header` size recomputation and report that the header was
written (wav.c `wav_write_header(self)` calls; the stream writes
themselves succeed in this model). -/
def wav_mutator_commit (c : WavMasterChunk) : MutOut :=
  (wav_write_header_chunk c, WavErr.ok, true)

/-- `wav_set_format` (wav.c lines 688-717).  The two fmt-size stores use
the `uint16_t*` pointer differences of lines 698 and 701
(`ptrdiff_valid_bits_format_tag` and `sizeof(WavFormatChunk) - 8`). -/
def wav_set_format (f : WavFile) (format : Nat) : MutOut :=
  if f.mode.head? = some 'r' then
    (f.chunk, WavErr.mode, false)
  else
    let fc := f.chunk.format_chunk
    let fc := { fc with format_tag := format }
    let fc :=
      if format ≠ WAV_FORMAT_PCM ∧ format ≠ WAV_FORMAT_EXTENSIBLE then
        { fc with ext_size := 0, size := ptrdiff_valid_bits_format_tag }
      else if format = WAV_FORMAT_EXTENSIBLE then
        { fc with ext_size := 22, size := sizeof_WavFormatChunk - WAV_RIFF_HEADER_SIZE }
      else fc
    let fc :=
      if format = WAV_FORMAT_ALAW ∨ format = WAV_FORMAT_MULAW then
        { fc with bits_per_sample := 8 }
      else if format = WAV_FORMAT_IEEE_FLOAT then
        let fc := if fc.block_align ≠ 4 ∧ fc.block_align ≠ 8 then
                    { fc with block_align := 4 }
                  else fc
        if fc.bits_per_sample > 8 * fc.block_align then
          { fc with bits_per_sample := 8 * fc.block_align }
        else fc
      else fc
    wav_mutator_commit { f.chunk with format_chunk := fc }

/-- `wav_set_num_channels` (wav.c lines 719-739).  `n_channels` and
`avg_bytes_per_sec` are 16- and 32-bit stores. -/
def wav_set_num_channels (f : WavFile) (n_channels : Nat) : MutOut :=
  if f.mode.head? = some 'r' then
    (f.chunk, WavErr.mode, false)
  else if n_channels < 1 then
    (f.chunk, WavErr.param, false)
  else
    let fc := f.chunk.format_chunk
    let fc := { fc with n_channels := n_channels % 2 ^ 16 }
    let fc := { fc with avg_bytes_per_sec := fc.block_align * fc.sample_rate % 2 ^ 32 }
    wav_mutator_commit { f.chunk with format_chunk := fc }

/-- `wav_set_sample_rate` (wav.c lines 741-756). -/
def wav_set_sample_rate (f : WavFile) (sample_rate : Nat) : MutOut :=
  if f.mode.head? = some 'r' then
    (f.chunk, WavErr.mode, false)
  else
    let fc := f.chunk.format_chunk
    let fc := { fc with sample_rate := sample_rate % 2 ^ 32 }
    let fc := { fc with avg_bytes_per_sec := fc.block_align * fc.sample_rate % 2 ^ 32 }
    wav_mutator_commit { f.chunk with format_chunk := fc }

/-- `wav_set_valid_bits_per_sample` (wav.c lines 758-786). -/
def wav_set_valid_bits_per_sample (f : WavFile) (bits : Nat) : MutOut :=
  if f.mode.head? = some 'r' then
    (f.chunk, WavErr.mode, false)
  else if bits < 1 ∨
          bits > 8 * f.chunk.format_chunk.block_align / f.chunk.format_chunk.n_channels then
    (f.chunk, WavErr.param, false)
  else if (f.chunk.format_chunk.format_tag = WAV_FORMAT_ALAW ∨
           f.chunk.format_chunk.format_tag = WAV_FORMAT_MULAW) ∧ bits ≠ 8 then
    (f.chunk, WavErr.param, false)
  else
    let fc := f.chunk.format_chunk
    let fc :=
      if fc.format_tag ≠ WAV_FORMAT_EXTENSIBLE then
        { fc with bits_per_sample := bits % 2 ^ 16 }
      else
        { fc with bits_per_sample := 8 * fc.block_align / fc.n_channels % 2 ^ 16,
                  valid_bits_per_sample := bits % 2 ^ 16 }
    wav_mutator_commit { f.chunk with format_chunk := fc }

/-- `wav_set_sample_size` (wav.c lines 788-809); the `block_align` and
`bits_per_sample` stores truncate to `uint16_t`. -/
def wav_set_sample_size (f : WavFile) (sample_size : Nat) : MutOut :=
  if f.mode.head? = some 'r' then
    (f.chunk, WavErr.mode, false)
  else if sample_size < 1 then
    (f.chunk, WavErr.param, false)
  else
    let fc := f.chunk.format_chunk
    let fc := { fc with block_align := sample_size * fc.n_channels % 2 ^ 16 }
    let fc := { fc with avg_bytes_per_sec := fc.block_align * fc.sample_rate % 2 ^ 32 }
    let fc := { fc with bits_per_sample := sample_size * 8 % 2 ^ 16 }
    let fc :=
      if fc.format_tag = WAV_FORMAT_EXTENSIBLE then
        { fc with valid_bits_per_sample := sample_size * 8 % 2 ^ 16 }
      else fc
    wav_mutator_commit { f.chunk with format_chunk := fc }

/-- `wav_set_channel_mask` (wav.c lines 811-827). -/
def wav_set_channel_mask (f : WavFile) (channel_mask : Nat) : MutOut :=
  if f.mode.head? = some 'r' then
    (f.chunk, WavErr.mode, false)
  else if f.chunk.format_chunk.format_tag ≠ WAV_FORMAT_EXTENSIBLE then
    (f.chunk, WavErr.format, false)
  else
    let fc := { f.chunk.format_chunk with channel_mask := channel_mask % 2 ^ 32 }
    wav_mutator_commit { f.chunk with format_chunk := fc }

/-- `wav_set_sub_format` (wav.c lines 829-845): stores the 16-bit value
into the first two bytes of `sub_format` (little endian). -/
def wav_set_sub_format (f : WavFile) (sub : Nat) : MutOut :=
  if f.mode.head? = some 'r' then
    (f.chunk, WavErr.mode, false)
  else if f.chunk.format_chunk.format_tag ≠ WAV_FORMAT_EXTENSIBLE then
    (f.chunk, WavErr.format, false)
  else
    let fc := f.chunk.format_chunk
    let fc := { fc with sub_format := sub % 256 :: sub / 256 % 256 :: fc.sub_format.drop 2 }
    wav_mutator_commit { f.chunk with format_chunk := fc }

/-- The format-tag classification of `wav_parse_header`
(wav.c lines 210-217): `true` when parsing continues past the tag check,
`false` when the chain falls into the `else` that sets `WAV_ERR_FORMAT`. -/
def wav_parse_header_tag_ok (tag : Nat) : Bool :=
  if tag = WAV_FORMAT_PCM then true
  else if tag = WAV_FORMAT_IEEE_FLOAT then true
  else if tag = WAV_FORMAT_ALAW ∨ tag = WAV_FORMAT_MULAW then true
  else false

/-- The `wav_container_sizes` table (wav.c line 448). -/
def wav_container_sizes : List Nat := [0, 1, 2, 4, 4]

/-- `wav_calc_container_size` (wav.c lines 450-453). -/
def wav_calc_container_size (sample_size : Nat) : Nat :=
  wav_container_sizes.getD sample_size 0

/-- Contents of the interleaving scratch buffer `self->tmp` filled by the
`wav_write` loops (wav.c lines 572-580):
`tmp[j*n_channels*sample_size + i*sample_size + k] = buffers[i][j*container_size + k]`
for channels `i < n_channels`, frames `j < count` and bytes
`k < sample_size`.  The buffer index `m` is presented in its unique
decomposition `m = j*(n*s) + (i*s + k)` with `i < n`, `k < s`, so this
function and the loop agree on every index the loop writes
(`wav_write_tmp_at` below re-establishes the loop's view); the store is a
`uint8_t` store, hence the `% 256`. -/
def wav_write_tmp (n s c : Nat) (buffers : Nat → Nat → Nat) (m : Nat) : Nat :=
  let j := m / (n * s)
  let r := m % (n * s)
  let i := r / s
  let k := r % s
  buffers i (j * c + k) % 256

/-- Bytes stored into channel `i`'s destination buffer by the `wav_read`
loops (wav.c lines 504-523), reading from the scratch buffer `tmp` that
`fread` filled with the interleaved data bytes: for `k < sample_size` the
byte `tmp[j*n*s + i*s + k]` is copied to `buffers[i][j*c + k]`; for
`sample_size <= k < container_size` the byte is `0xff` when the last
copied byte `buffers[i][j*c + s - 1]` has its top bit set (`& 0x80`,
line 512), else `0x00`.  The destination index `t` is presented in its
decomposition `t = j*c + k`, `k < c`. -/
def wav_read_dst (n s c : Nat) (tmp : Nat → Nat) (i t : Nat) : Nat :=
  let j := t / c
  let k := t % c
  if k < s then
    tmp (j * n * s + i * s + k) % 256
  else
    if tmp (j * n * s + i * s + (s - 1)) % 256 &&& 0x80 ≠ 0 then 0xff else 0x00

/-- Round trip of one destination byte through `wav_write` followed by
`wav_read` at the same position: the data-chunk bytes `wav_write` emits
are exactly the bytes `fread` hands back to `wav_read`, so the read-side
scratch buffer is `wav_write_tmp` of the written buffers. -/
def wav_rw_byte (n s c : Nat) (buffers : Nat → Nat → Nat) (i t : Nat) : Nat :=
  wav_read_dst n s c (wav_write_tmp n s c buffers) i t

/-- Little-endian value of the first `c` bytes of `bs`, as a `Nat`. -/
def bytesLE (bs : Nat → Nat) (c : Nat) : Nat :=
  ∑ k ∈ Finset.range c, bs k * 256 ^ k

/-- Signed (two's-complement) value of a `c`-byte little-endian container,
as the application reads its fixed-width integer samples. -/
def intOfBytesLE (bs : Nat → Nat) (c : Nat) : Int :=
  let u := bytesLE bs c
  if u < 256 ^ c / 2 then (u : Int) else (u : Int) - (256 ^ c : Int)

/-- Two's-complement representative of `v` in `w` bits. -/
def twosComplement (v : Int) (w : Nat) : Nat :=
  (v % (2 ^ w : Int)).toNat

/-- Byte `k` of the little-endian representation of `x`. -/
def natByte (x k : Nat) : Nat :=
  x / 256 ^ k % 256

/-- Byte `k` of the `c`-byte container holding the fixed-width integer
sample `v`, as a little-endian application stores it. -/
def containerByte (v : Int) (c k : Nat) : Nat :=
  natByte (twosComplement v (8 * c)) k

/-- The scratch-buffer function agrees with the `wav_write` loop at every
index the loop writes: decomposing `j*n*s + i*s + k` with `i < n`,
`k < s` recovers `(j, i, k)`. -/
theorem wav_write_tmp_at (n s c : Nat) (buffers : Nat → Nat → Nat)
    (i j k : Nat) (hi : i < n) (hk : k < s) :
    wav_write_tmp n s c buffers (j * n * s + i * s + k) = buffers i (j * c + k) % 256 := by
  have hs : 0 < s := by omega
  have hr : i * s + k < n * s := by
    calc i * s + k < i * s + s := by omega
    _ = (i + 1) * s := by ring
    _ ≤ n * s := Nat.mul_le_mul_right s (by omega)
  have hm : j * n * s + i * s + k = (i * s + k) + (n * s) * j := by ring
  have e1 : (j * n * s + i * s + k) / (n * s) = j := by
    rw [hm, Nat.add_mul_div_left _ _ (by omega), Nat.div_eq_of_lt hr, Nat.zero_add]
  have e2 : (j * n * s + i * s + k) % (n * s) = i * s + k := by
    rw [hm, Nat.add_mul_mod_self_left, Nat.mod_eq_of_lt hr]
  have h2 : i * s + k = k + s * i := by ring
  have e3 : (i * s + k) / s = i := by
    rw [h2, Nat.add_mul_div_left _ _ hs, Nat.div_eq_of_lt hk, Nat.zero_add]
  have e4 : (i * s + k) % s = k := by
    rw [h2, Nat.add_mul_mod_self_left, Nat.mod_eq_of_lt hk]
  simp only [wav_write_tmp]
  rw [e1, e2, e3, e4]

/-- The destination function agrees with the `wav_read` loop at every byte
of frame `j`'s container in channel `i`. -/
theorem wav_read_dst_at (n s c : Nat) (tmp : Nat → Nat) (i j k : Nat)
    (hk : k < c) :
    wav_read_dst n s c tmp i (j * c + k) =
      if k < s then tmp (j * n * s + i * s + k) % 256
      else if tmp (j * n * s + i * s + (s - 1)) % 256 &&& 0x80 ≠ 0 then 0xff else 0x00 := by
  have hc : 0 < c := by omega
  have h0 : j * c + k = k + c * j := by ring
  have hd : (j * c + k) / c = j := by
    rw [h0, Nat.add_mul_div_left _ _ hc, Nat.div_eq_of_lt hk, Nat.zero_add]
  have hm : (j * c + k) % c = k := by
    rw [h0, Nat.add_mul_mod_self_left, Nat.mod_eq_of_lt hk]
  simp only [wav_read_dst]
  rw [hd, hm]

/-- Byte-level round trip through the transcoder: every container byte the
reader produces is either the byte the writer consumed (low
`sample_size` bytes) or the sign-extension fill determined by the top bit
of the most significant transferred byte. -/
theorem wav_rw_byte_at (n s c : Nat) (buffers : Nat → Nat → Nat) (i j k : Nat)
    (hi : i < n) (hs : 0 < s) (hk : k < c) :
    wav_rw_byte n s c buffers i (j * c + k) =
      if k < s then buffers i (j * c + k) % 256
      else if buffers i (j * c + (s - 1)) % 256 &&& 0x80 ≠ 0 then 0xff else 0x00 := by
  unfold wav_rw_byte
  rw [wav_read_dst_at n s c _ i j k hk]
  have h1 : s - 1 < s := by omega
  by_cases hks : k < s
  · simp only [hks, if_true]
    rw [wav_write_tmp_at n s c buffers i j k hi hks]
    omega
  · simp only [hks, if_false]
    rw [wav_write_tmp_at n s c buffers i j (s - 1) hi h1]
    have : buffers i (j * c + (s - 1)) % 256 % 256 = buffers i (j * c + (s - 1)) % 256 := by
      omega
    rw [this]

set_option maxRecDepth 4096 in
/-- Bitwise test `b & 0x80 != 0` coincides with `128 ≤ b` on bytes. -/
theorem byte_and_128_iff : ∀ b < 256, ((b &&& 0x80 ≠ 0) ↔ 128 ≤ b) := by decide

/-- Reassembling the little-endian bytes of `x` recovers `x` for the
container widths the transcoder uses. -/
theorem bytesLE_natByte (c : Nat) (hc : c = 1 ∨ c = 2 ∨ c = 4) (x : Nat)
    (hx : x < 256 ^ c) :
    bytesLE (natByte x) c = x := by
  rcases hc with rfl | rfl | rfl <;>
    simp only [bytesLE, natByte, Finset.sum_range_succ, Finset.sum_range_zero,
      pow_zero, pow_one, pow_succ] <;>
    norm_num at hx ⊢ <;> omega

/-- Range of the two's-complement representative. -/
theorem twosComplement_lt (v : Int) (w : Nat) : twosComplement v w < 2 ^ w := by
  have h2 : (0 : Int) < 2 ^ w := by positivity
  have h1 := Int.emod_lt_of_pos v h2
  have h0 := Int.emod_nonneg v (ne_of_gt h2)
  have hc : ((2 : Int) ^ w) = ((2 ^ w : Nat) : Int) := by push_cast; ring
  unfold twosComplement
  omega

/-- Decoding the container bytes of a fixed-width sample recovers the
sample, for the container widths the transcoder uses and values in the
signed range of the container. -/
theorem intOfBytesLE_container (c : Nat) (hc : c = 1 ∨ c = 2 ∨ c = 4) (v : Int)
    (hlo : -(2 ^ (8 * c - 1) : Int) ≤ v) (hhi : v < 2 ^ (8 * c - 1)) :
    intOfBytesLE (containerByte v c) c = v := by
  have hceq : containerByte v c = natByte (twosComplement v (8 * c)) := rfl
  have hx := twosComplement_lt v (8 * c)
  have hx0 : (twosComplement v (8 * c) : Int) = v % 2 ^ (8 * c) := by
    unfold twosComplement
    have h2 : (0 : Int) < 2 ^ (8 * c) := by positivity
    have := Int.emod_nonneg v (ne_of_gt h2)
    omega
  rcases hc with rfl | rfl | rfl <;>
  · rw [hceq]
    simp only [intOfBytesLE]
    rw [bytesLE_natByte _ (by norm_num) _ (by norm_num at hx ⊢; omega)]
    norm_num at hx hx0 hlo hhi ⊢
    split_ifs <;> omega


/-- Sign-extension correctness for 3-byte samples in 4-byte containers:
the fill byte chosen from the top bit of container byte 2 equals the
fourth container byte of the two's-complement encoding, for every value
in the signed 24-bit range. -/
theorem containerByte_signExt (v : Int)
    (hlo : -(2 ^ 23 : Int) ≤ v) (hhi : v < 2 ^ 23) :
    (if containerByte v 4 2 &&& 0x80 ≠ 0 then 0xff else 0x00) = containerByte v 4 3 := by
  have hx := twosComplement_lt v (8 * 4)
  have hx0 : (twosComplement v (8 * 4) : Int) = v % 2 ^ (8 * 4) := by
    unfold twosComplement
    have h2 : (0 : Int) < 2 ^ (8 * 4) := by positivity
    have := Int.emod_nonneg v (ne_of_gt h2)
    omega
  have hb2 : containerByte v 4 2 < 256 := by
    simp only [containerByte, natByte]
    omega
  rw [if_congr (byte_and_128_iff _ hb2) rfl rfl]
  simp only [containerByte, natByte] at *
  norm_num at hx hx0 hlo hhi ⊢
  split_ifs with h <;> omega

/-- Container bytes are bytes. -/
theorem containerByte_mod (v : Int) (c k : Nat) :
    containerByte v c k % 256 = containerByte v c k := by
  simp only [containerByte, natByte]
  omega

/-- Byte-level behaviour of the transcoder on one container: when channel
`i`'s source buffer holds the container encoding of sample `v` at frame
`j`, every byte read back equals the corresponding byte of that encoding
(the low `s` bytes verbatim, the rest by sign extension). -/
theorem wav_rw_container (n s c : Nat) (buffers : Nat → Nat → Nat)
    (i j : Nat) (hi : i < n) (hs0 : 0 < s) (hsc : s ≤ c)
    (hnarrow : s < c → s = 3 ∧ c = 4)
    (v : Int) (hlo : -(2 ^ (8 * s - 1) : Int) ≤ v) (hhi : v < 2 ^ (8 * s - 1))
    (hbuf : ∀ k, k < c → buffers i (j * c + k) = containerByte v c k) :
    ∀ k, k < c → wav_rw_byte n s c buffers i (j * c + k) = containerByte v c k := by
  intro k hkc
  rw [wav_rw_byte_at n s c buffers i j k hi hs0 hkc]
  by_cases hks : k < s
  · simp only [hks, if_true]
    rw [hbuf k hkc, containerByte_mod]
  · simp only [hks, if_false]
    obtain ⟨rfl, rfl⟩ := hnarrow (by omega)
    have hk3 : k = 3 := by omega
    subst hk3
    rw [hbuf 2 (by omega), containerByte_mod]
    have hlo3 : -(2 ^ 23 : Int) ≤ v := by norm_num at hlo ⊢; omega
    have hhi3 : v < (2 ^ 23 : Int) := by norm_num at hhi ⊢; omega
    exact containerByte_signExt v hlo3 hhi3

/-- C1: for every valid PCM sample width (sample sizes 1, 2, 3 and 4
bytes, i.e. 8/16/24/32 bits), every channel count `n ≥ 1` and arbitrary
per-channel sample values in the signed range of the sample width,
running `N` frames through the `wav_write` interleave loops and reading
the resulting data bytes back through the `wav_read` de-interleave loops
at the same position returns, in every channel and frame, exactly the
value that was written — including the correct negative value for 24-bit
samples whose top bit is set, obtained by sign-extending the fourth
container byte. -/
theorem wav_write_read_roundtrip (n N s : Nat)
    (hs : s = 1 ∨ s = 2 ∨ s = 3 ∨ s = 4) (_hn : 1 ≤ n)
    (vals : Nat → Nat → Int)
    (hlo : ∀ i j, -(2 ^ (8 * s - 1) : Int) ≤ vals i j)
    (hhi : ∀ i j, vals i j < 2 ^ (8 * s - 1))
    (i j : Nat) (hi : i < n) (_hj : j < N) :
    intOfBytesLE
      (fun k => wav_rw_byte n s (wav_calc_container_size s)
        (fun i2 t => containerByte (vals i2 (t / wav_calc_container_size s))
          (wav_calc_container_size s) (t % wav_calc_container_size s))
        i (j * wav_calc_container_size s + k))
      (wav_calc_container_size s) = vals i j := by
  obtain ⟨hs0, hsc, hcc, hnarrow⟩ :
      0 < s ∧ s ≤ wav_calc_container_size s ∧
      (wav_calc_container_size s = 1 ∨ wav_calc_container_size s = 2 ∨
        wav_calc_container_size s = 4) ∧
      (s < wav_calc_container_size s → s = 3 ∧ wav_calc_container_size s = 4) := by
    rcases hs with rfl | rfl | rfl | rfl <;> refine ⟨?_, ?_, ?_, ?_⟩ <;> decide
  set c := wav_calc_container_size s with hcdef
  have hbuf : ∀ k, k < c →
      containerByte (vals i ((j * c + k) / c)) c ((j * c + k) % c)
        = containerByte (vals i j) c k := by
    intro k hkc
    have hcpos : 0 < c := by omega
    rw [show j * c + k = k + c * j by ring, Nat.add_mul_div_left _ _ hcpos,
        Nat.div_eq_of_lt hkc, Nat.zero_add, Nat.add_mul_mod_self_left,
        Nat.mod_eq_of_lt hkc]
  have hb := wav_rw_container n s c
      (fun i2 t => containerByte (vals i2 (t / c)) c (t % c)) i j hi hs0 hsc hnarrow
      (vals i j) (hlo i j) (hhi i j) hbuf
  have hsum : bytesLE
      (fun k => wav_rw_byte n s c
        (fun i2 t => containerByte (vals i2 (t / c)) c (t % c)) i (j * c + k)) c
      = bytesLE (containerByte (vals i j) c) c := by
    unfold bytesLE
    exact Finset.sum_congr rfl fun k hk =>
      congrArg (fun z => z * 256 ^ k) (hb k (Finset.mem_range.mp hk))
  have hmono : (2 : Int) ^ (8 * s - 1) ≤ 2 ^ (8 * c - 1) :=
    pow_le_pow_right₀ (by norm_num) (by omega)
  have hdec := intOfBytesLE_container c hcc (vals i j)
    (by have := hlo i j; linarith) (by have := hhi i j; linarith)
  simp only [intOfBytesLE] at hdec ⊢
  rw [hsum]
  exact hdec

/-- Handle state of a parsed standard stereo 16-bit PCM file: fmt chunk
size 16, block align 4, two recorded frames (8 data bytes), no fact
chunk, stream at the first payload byte (offset 44). -/
def demo_read_file : WavFile :=
  { mode := ['r', 'b']
    chunk :=
      { id := WAV_RIFF_CHUNK_ID
        size := 44
        wave_id := WAV_WAVE_ID
        format_chunk :=
          { id := WAV_FORMAT_CHUNK_ID, size := 16, format_tag := WAV_FORMAT_PCM
            n_channels := 2, sample_rate := 44100, avg_bytes_per_sec := 176400
            block_align := 4, bits_per_sample := 16, ext_size := 0
            valid_bits_per_sample := 0, channel_mask := 0
            sub_format := default_sub_format }
        fact_chunk := { id := WAV_DATA_CHUNK_ID, size := 0, sample_length := 0 }
        data_chunk := { id := WAV_DATA_CHUNK_ID, size := 8 } }
    pos_bytes := 44
    at_feof := false }

/-- Handle state of a mono 8-bit file open for writing: fmt chunk size
16, block align 1, three data bytes recorded, stream at end-of-data
(offset 44 + 3). -/
def demo_write_file : WavFile :=
  { mode := ['w', 'b']
    chunk :=
      { id := WAV_RIFF_CHUNK_ID
        size := 39
        wave_id := WAV_WAVE_ID
        format_chunk :=
          { id := WAV_FORMAT_CHUNK_ID, size := 16, format_tag := WAV_FORMAT_PCM
            n_channels := 1, sample_rate := 44100, avg_bytes_per_sec := 44100
            block_align := 1, bits_per_sample := 8, ext_size := 0
            valid_bits_per_sample := 0, channel_mask := 0
            sub_format := default_sub_format }
        fact_chunk := { id := WAV_DATA_CHUNK_ID, size := 0, sample_length := 0 }
        data_chunk := { id := WAV_DATA_CHUNK_ID, size := 3 } }
    pos_bytes := 47
    at_feof := false }

/-- C1 witness: one mono 24-bit frame holding the negative sample `-1`
survives the write/read round trip. -/
theorem wav_write_read_roundtrip_witness :
    ((3 : Nat) = 1 ∨ (3 : Nat) = 2 ∨ (3 : Nat) = 3 ∨ (3 : Nat) = 4) ∧ (1 ≤ 1) ∧
    (∀ i j : Nat, -(2 ^ (8 * 3 - 1) : Int) ≤ (fun _ _ => (-1 : Int)) i j) ∧
    (∀ i j : Nat, (fun _ _ => (-1 : Int)) i j < 2 ^ (8 * 3 - 1)) ∧
    (0 < 1) ∧ (0 < 1) ∧
    intOfBytesLE
      (fun k => wav_rw_byte 1 3 (wav_calc_container_size 3)
        (fun i2 t => containerByte ((fun _ _ => (-1 : Int)) i2 (t / wav_calc_container_size 3))
          (wav_calc_container_size 3) (t % wav_calc_container_size 3))
        0 (0 * wav_calc_container_size 3 + k))
      (wav_calc_container_size 3) = (fun _ _ => (-1 : Int)) 0 0 :=
  ⟨by decide, by decide, fun i j => by norm_num, fun i j => by norm_num,
   by decide, by decide,
   wav_write_read_roundtrip 1 1 3 (by decide) (by decide) (fun _ _ => (-1 : Int))
     (fun i j => by norm_num) (fun i j => by norm_num) 0 0 (by decide) (by decide)⟩

/-- C2: evaluating `wav_seek` on a parsed stereo 16-bit handle with two
frames.  `seek(0, SEEK_END)` resolves to offset 2, passes the range
check and reports OK, but the stream is repositioned to byte
`block_align = 4` instead of `header_length + 2 * block_align = 52`, so
the following `tell()` does not report the length; the out-of-range call
`seek(length + 1, SEEK_SET)` does fail with the parameter error and
leaves the position untouched. -/
theorem wav_seek_misplaces_stream :
    (wav_seek demo_read_file 0 SeekOrigin.seekEnd).2 = WavErr.ok ∧
    (wav_seek demo_read_file 0 SeekOrigin.seekEnd).1.pos_bytes = 4 ∧
    wav_get_header_size demo_read_file.chunk +
      wav_get_length demo_read_file.chunk *
        demo_read_file.chunk.format_chunk.block_align = 52 ∧
    (wav_seek demo_read_file 0 SeekOrigin.seekEnd).1.pos_bytes ≠ 52 ∧
    wav_tell (wav_seek demo_read_file 0 SeekOrigin.seekEnd).1 ≠
      wav_get_length demo_read_file.chunk ∧
    (wav_seek demo_read_file 3 SeekOrigin.seekSet).2 = WavErr.param ∧
    (wav_seek demo_read_file 3 SeekOrigin.seekSet).1.pos_bytes =
      demo_read_file.pos_bytes := by
  decide

/-- C3: evaluating the sample-I/O mode gates.  `wav_init` canonicalizes
"w+" to the write-only mode "wb" and "r+" to the read-only mode "rb"
(their dedicated branches are shadowed by the one-character prefix
tests), and the prefix tests inside `wav_read`/`wav_write` reject even
the canonical "wb+"/"rb+" strings, so reading on a `w+`-opened handle
and writing on an `r+`-opened handle both fail with the mode error. -/
theorem wav_rw_mode_gate_eval :
    wav_init_mode ['w', '+'] = some ['w', 'b'] ∧
    wav_read_mode_rejected ['w', 'b'] = true ∧
    wav_init_mode ['r', '+'] = some ['r', 'b'] ∧
    wav_write_mode_rejected ['r', 'b'] = true ∧
    wav_read_mode_rejected ['w', 'b', '+'] = true ∧
    wav_write_mode_rejected ['r', 'b', '+'] = true ∧
    wav_read_mode_rejected ['a', 'b', '+'] = true := by
  decide

/-- C4: the format-tag classification of `wav_parse_header` accepts
exactly PCM, IEEE float, A-law and mu-law; the extensible tag 0xFFFE
falls into the same `WAV_ERR_FORMAT` branch as any other tag. -/
theorem wav_parse_header_rejects_extensible :
    wav_parse_header_tag_ok WAV_FORMAT_EXTENSIBLE = false ∧
    wav_parse_header_tag_ok WAV_FORMAT_PCM = true ∧
    wav_parse_header_tag_ok WAV_FORMAT_IEEE_FLOAT = true ∧
    wav_parse_header_tag_ok WAV_FORMAT_ALAW = true ∧
    wav_parse_header_tag_ok WAV_FORMAT_MULAW = true ∧
    wav_parse_header_tag_ok 2 = false := by
  decide

/-- C5: evaluating the write-mode initialization.  The defaults are the
claimed 2 channels, 44100 Hz, 16 bits, block align 4 and no fact chunk,
but the declared fmt chunk size is the `uint16_t`-element pointer
difference 8 rather than the 16-byte field span, so the computed header
length is 36 bytes, not 44. -/
theorem wav_init_default_header_eval :
    wav_init_write_chunk.format_chunk.n_channels = 2 ∧
    wav_init_write_chunk.format_chunk.sample_rate = 44100 ∧
    wav_init_write_chunk.format_chunk.bits_per_sample = 16 ∧
    wav_init_write_chunk.format_chunk.block_align = 4 ∧
    wav_init_write_chunk.fact_chunk.id ≠ WAV_FACT_CHUNK_ID ∧
    wav_init_write_chunk.format_chunk.size = 8 ∧
    wav_get_header_size wav_init_write_chunk = 36 ∧
    wav_get_header_size wav_init_write_chunk ≠ 44 := by
  decide

/-- C6: every run of the `wav_write_header` size recomputation stores
`4 + (8 + fmt.size) + (8 + data.size)` plus `8 + fact.size` when a fact
chunk is present, incremented by exactly one when odd; the stored RIFF
size is even and `data_chunk.size` is untouched. -/
theorem wav_write_header_riff_size (c : WavMasterChunk)
    (h : 4 + (WAV_RIFF_HEADER_SIZE + c.format_chunk.size) +
         (WAV_RIFF_HEADER_SIZE + c.data_chunk.size) +
         (if c.fact_chunk.id = WAV_FACT_CHUNK_ID then
            WAV_RIFF_HEADER_SIZE + c.fact_chunk.size else 0) + 1 < 2 ^ 32) :
    (wav_write_header_chunk c).size =
      (4 + (WAV_RIFF_HEADER_SIZE + c.format_chunk.size) +
       (WAV_RIFF_HEADER_SIZE + c.data_chunk.size) +
       (if c.fact_chunk.id = WAV_FACT_CHUNK_ID then
          WAV_RIFF_HEADER_SIZE + c.fact_chunk.size else 0)) +
      (if (4 + (WAV_RIFF_HEADER_SIZE + c.format_chunk.size) +
           (WAV_RIFF_HEADER_SIZE + c.data_chunk.size) +
           (if c.fact_chunk.id = WAV_FACT_CHUNK_ID then
              WAV_RIFF_HEADER_SIZE + c.fact_chunk.size else 0)) % 2 = 1
       then 1 else 0) ∧
    (wav_write_header_chunk c).size % 2 = 0 ∧
    (wav_write_header_chunk c).data_chunk = c.data_chunk := by
  by_cases hf : c.fact_chunk.id = WAV_FACT_CHUNK_ID
  · refine ⟨?_, ?_, rfl⟩ <;>
    · simp only [wav_write_header_chunk, hf, if_true, WAV_RIFF_HEADER_SIZE] at h ⊢
      split_ifs <;> omega
  · refine ⟨?_, ?_, rfl⟩ <;>
    · simp only [wav_write_header_chunk, hf, if_false, WAV_RIFF_HEADER_SIZE] at h ⊢
      split_ifs <;> omega

/-- C6 witness: the recomputation on the demo write chunk (base size
39 + 8 = wait, data size 3, fmt 16, no fact: 4 + 24 + 11 = 39, odd). -/
theorem wav_write_header_riff_size_witness :
    (4 + (WAV_RIFF_HEADER_SIZE + demo_write_file.chunk.format_chunk.size) +
     (WAV_RIFF_HEADER_SIZE + demo_write_file.chunk.data_chunk.size) +
     (if demo_write_file.chunk.fact_chunk.id = WAV_FACT_CHUNK_ID then
        WAV_RIFF_HEADER_SIZE + demo_write_file.chunk.fact_chunk.size else 0) + 1 < 2 ^ 32) ∧
    (wav_write_header_chunk demo_write_file.chunk).size % 2 = 0 :=
  ⟨by decide, (wav_write_header_riff_size demo_write_file.chunk (by decide)).2.1⟩

/-- C7: on a readable non-extensible handle, `wav_read` clamps the
requested frame count to the frames remaining before end-of-data,
returns OK with zero frames when nothing remains, and returns the
smaller-than-requested count with OK status instead of an error. -/
theorem wav_read_clamped_ok (f : WavFile) (count : Nat)
    (hmode : wav_read_mode_rejected f.mode = false)
    (htag : f.chunk.format_chunk.format_tag ≠ WAV_FORMAT_EXTENSIBLE) :
    (wav_read_frames f count).1 = WavErr.ok ∧
    (wav_read_frames f count).2 = min count (wav_get_length f.chunk - wav_tell f) ∧
    (wav_get_length f.chunk - wav_tell f = 0 →
      wav_read_frames f count = (WavErr.ok, 0)) := by
  have hmain : wav_read_frames f count =
      (WavErr.ok, min count (wav_get_length f.chunk - wav_tell f)) := by
    simp only [wav_read_frames, hmode, htag]
    norm_num
    split_ifs <;> simp [Prod.ext_iff] <;> omega
  refine ⟨by rw [hmain], by rw [hmain], fun h0 => by rw [hmain, h0]; simp⟩

/-- C7 witness: requesting five frames from the two-frame demo handle
returns OK with the clamped count two. -/
theorem wav_read_clamped_ok_witness :
    wav_read_mode_rejected demo_read_file.mode = false ∧
    demo_read_file.chunk.format_chunk.format_tag ≠ WAV_FORMAT_EXTENSIBLE ∧
    (wav_read_frames demo_read_file 5).1 = WavErr.ok ∧
    (wav_read_frames demo_read_file 5).2 =
      min 5 (wav_get_length demo_read_file.chunk - wav_tell demo_read_file) :=
  ⟨by decide, by decide,
   (wav_read_clamped_ok demo_read_file 5 (by decide) (by decide)).1,
   (wav_read_clamped_ok demo_read_file 5 (by decide) (by decide)).2.1⟩

/-- C8: evaluating the open-mode canonicalization.  The `strncmp` prefix
tests accept strings outside the documented grammar — "rr" is not a C
file mode yet is canonicalized to "rb" instead of failing with the mode
error — and the one-character prefixes shadow the later branches, so
"r+" also canonicalizes to plain "rb"; strings starting with none of
'r', 'w', 'a' do fail. -/
theorem wav_init_mode_prefix_eval :
    wav_init_mode ['r', 'r'] = some ['r', 'b'] ∧
    wav_init_mode ['w', 'q'] = some ['w', 'b'] ∧
    wav_init_mode ['r', '+'] = some ['r', 'b'] ∧
    wav_init_mode ['w', '+', 'x'] = some ['w', 'b'] ∧
    wav_init_mode ['z'] = none := by
  decide

/-- C9: closing a handle open in a write/append mode whose recorded data
size is odd, with the stream at end-of-data, writes exactly one zero pad
byte; the recorded `data_chunk.size` is not incremented (it stays odd),
and a reopened read handle positioned at `header_length +
data_chunk.size` reports `eof()` true at that un-padded boundary. -/
theorem wav_finalize_odd_padding (f : WavFile)
    (hmode : wav_finalize_mode_pads f.mode = true)
    (hodd : f.chunk.data_chunk.size % 2 = 1)
    (hpos : f.pos_bytes = wav_get_header_size f.chunk + f.chunk.data_chunk.size) :
    (wav_finalize f).2 = 1 ∧
    (wav_finalize f).1.chunk.data_chunk.size = f.chunk.data_chunk.size ∧
    (wav_finalize f).1.chunk.data_chunk.size % 2 = 1 ∧
    wav_eof { mode := ['r', 'b'], chunk := f.chunk,
              pos_bytes := wav_get_header_size f.chunk + f.chunk.data_chunk.size,
              at_feof := false } = true := by
  have heof : wav_eof f = true := by simp [wav_eof, hpos]
  refine ⟨?_, ?_, ?_, by simp [wav_eof]⟩ <;>
    simp [wav_finalize, hmode, heof, hodd]

/-- C9 witness: the demo write handle (mode "wb", three data bytes, at
end-of-data) receives exactly one pad byte and keeps its odd size. -/
theorem wav_finalize_odd_padding_witness :
    wav_finalize_mode_pads demo_write_file.mode = true ∧
    demo_write_file.chunk.data_chunk.size % 2 = 1 ∧
    demo_write_file.pos_bytes =
      wav_get_header_size demo_write_file.chunk +
        demo_write_file.chunk.data_chunk.size ∧
    (wav_finalize demo_write_file).2 = 1 ∧
    (wav_finalize demo_write_file).1.chunk.data_chunk.size = 3 :=
  ⟨by decide, by decide, by decide,
   (wav_finalize_odd_padding demo_write_file (by decide) (by decide) (by decide)).1,
   (wav_finalize_odd_padding demo_write_file (by decide) (by decide) (by decide)).2.1⟩

/-- C10: every format mutator that fails with a mode, parameter or
format error (any non-OK result in this model) leaves the chunk model
completely unchanged and never reaches its `wav_write_header` call — all
validation happens before any field is mutated. -/
theorem wav_setters_unchanged_on_error (f : WavFile)
    (format n_channels sample_rate bits sample_size channel_mask sub : Nat) :
    ((wav_set_format f format).2.1 ≠ WavErr.ok →
      (wav_set_format f format).1 = f.chunk ∧
      (wav_set_format f format).2.2 = false) ∧
    ((wav_set_num_channels f n_channels).2.1 ≠ WavErr.ok →
      (wav_set_num_channels f n_channels).1 = f.chunk ∧
      (wav_set_num_channels f n_channels).2.2 = false) ∧
    ((wav_set_sample_rate f sample_rate).2.1 ≠ WavErr.ok →
      (wav_set_sample_rate f sample_rate).1 = f.chunk ∧
      (wav_set_sample_rate f sample_rate).2.2 = false) ∧
    ((wav_set_valid_bits_per_sample f bits).2.1 ≠ WavErr.ok →
      (wav_set_valid_bits_per_sample f bits).1 = f.chunk ∧
      (wav_set_valid_bits_per_sample f bits).2.2 = false) ∧
    ((wav_set_sample_size f sample_size).2.1 ≠ WavErr.ok →
      (wav_set_sample_size f sample_size).1 = f.chunk ∧
      (wav_set_sample_size f sample_size).2.2 = false) ∧
    ((wav_set_channel_mask f channel_mask).2.1 ≠ WavErr.ok →
      (wav_set_channel_mask f channel_mask).1 = f.chunk ∧
      (wav_set_channel_mask f channel_mask).2.2 = false) ∧
    ((wav_set_sub_format f sub).2.1 ≠ WavErr.ok →
      (wav_set_sub_format f sub).1 = f.chunk ∧
      (wav_set_sub_format f sub).2.2 = false) := by
  refine ⟨?_, ?_, ?_, ?_, ?_, ?_, ?_⟩
  · intro h
    by_cases h1 : f.mode.head? = some 'r'
    · simp [wav_set_format, h1]
    · exact absurd (by simp [wav_set_format, h1, wav_mutator_commit]) h
  · intro h
    by_cases h1 : f.mode.head? = some 'r'
    · simp [wav_set_num_channels, h1]
    · by_cases h2 : n_channels < 1
      · have h2' : n_channels = 0 := by omega
        simp [wav_set_num_channels, h1, h2']
      · have h2' : ¬n_channels = 0 := by omega
        exact absurd (by simp [wav_set_num_channels, h1, h2', wav_mutator_commit]) h
  · intro h
    by_cases h1 : f.mode.head? = some 'r'
    · simp [wav_set_sample_rate, h1]
    · exact absurd (by simp [wav_set_sample_rate, h1, wav_mutator_commit]) h
  · intro h
    by_cases h1 : f.mode.head? = some 'r'
    · simp [wav_set_valid_bits_per_sample, h1]
    · by_cases h2 : bits < 1 ∨
          bits > 8 * f.chunk.format_chunk.block_align / f.chunk.format_chunk.n_channels
      · have h2' : bits = 0 ∨
            8 * f.chunk.format_chunk.block_align / f.chunk.format_chunk.n_channels < bits := by
          omega
        simp [wav_set_valid_bits_per_sample, h1, h2']
      · have h2' : ¬(bits = 0 ∨
            8 * f.chunk.format_chunk.block_align / f.chunk.format_chunk.n_channels < bits) := by
          omega
        by_cases h3 : (f.chunk.format_chunk.format_tag = WAV_FORMAT_ALAW ∨
            f.chunk.format_chunk.format_tag = WAV_FORMAT_MULAW) ∧ bits ≠ 8
        · have h3b : ¬bits = 8 := h3.2
          simp [wav_set_valid_bits_per_sample, h1, h2', h3, h3b]
        · exact absurd
            (by simp [wav_set_valid_bits_per_sample, h1, h2', h3, wav_mutator_commit]) h
  · intro h
    by_cases h1 : f.mode.head? = some 'r'
    · simp [wav_set_sample_size, h1]
    · by_cases h2 : sample_size < 1
      · have h2' : sample_size = 0 := by omega
        simp [wav_set_sample_size, h1, h2']
      · have h2' : ¬sample_size = 0 := by omega
        exact absurd (by simp [wav_set_sample_size, h1, h2', wav_mutator_commit]) h
  · intro h
    by_cases h1 : f.mode.head? = some 'r'
    · simp [wav_set_channel_mask, h1]
    · by_cases h2 : f.chunk.format_chunk.format_tag ≠ WAV_FORMAT_EXTENSIBLE
      · simp [wav_set_channel_mask, h1, h2]
      · exact absurd (by simp [wav_set_channel_mask, h1, h2, wav_mutator_commit]) h
  · intro h
    by_cases h1 : f.mode.head? = some 'r'
    · simp [wav_set_sub_format, h1]
    · by_cases h2 : f.chunk.format_chunk.format_tag ≠ WAV_FORMAT_EXTENSIBLE
      · simp [wav_set_sub_format, h1, h2]
      · exact absurd (by simp [wav_set_sub_format, h1, h2, wav_mutator_commit]) h

/-- C10 witness: a mode error (setter on a read handle), a parameter
error (zero channels) and a format error (channel mask on a PCM handle)
each leave the chunk model unchanged. -/
theorem wav_setters_unchanged_on_error_witness :
    (wav_set_format demo_read_file 1).2.1 ≠ WavErr.ok ∧
    (wav_set_format demo_read_file 1).1 = demo_read_file.chunk ∧
    (wav_set_num_channels demo_write_file 0).2.1 ≠ WavErr.ok ∧
    (wav_set_num_channels demo_write_file 0).1 = demo_write_file.chunk ∧
    (wav_set_channel_mask demo_write_file 5).2.1 ≠ WavErr.ok ∧
    (wav_set_channel_mask demo_write_file 5).1 = demo_write_file.chunk :=
  ⟨by decide,
   ((wav_setters_unchanged_on_error demo_read_file 1 1 1 1 1 1 1).1 (by decide)).1,
   by decide,
   ((wav_setters_unchanged_on_error demo_write_file 1 0 1 1 1 1 1).2.1 (by decide)).1,
   by decide,
   ((wav_setters_unchanged_on_error demo_write_file 1 1 1 1 1 5 1).2.2.2.2.2.1 (by decide)).1⟩

end LibWav
